import Mathlib

/-!
Verification development for the Jarvis Reminder Scheduling & Notification
Engine (`reminder_system.py`, `tray_icon.py`).  The Python data model and
operations are shallowly embedded as executable Lean definitions; the
theorems below settle the specification claims about them.

Conventions of the embedding:
* Python `datetime` values (all created with `pytz.utc`, hence tz-aware UTC
  with no DST) are modelled as a record of calendar/clock fields with
  microsecond resolution; comparison is Python's lexicographic tuple
  comparison of the fields.
* `time.time()` (a float of epoch seconds) is modelled by its value in
  integer microseconds, `int(time.time())` by division by 10^6.
* The reminder store (a Python `dict` keyed by id, insertion ordered) is an
  association list with unique keys; dict assignment replaces the value of
  an existing key in place and appends otherwise.
* `recurring_interval` (a Python `Dict[str, int]` or `None`) is an optional
  association list from strings to the (non-negative) counts the program
  uses; Python falsiness of a dict is emptiness.
* Side effects (popup/speech in `_notify_reminder`, `showMessage` in the
  tray, `_save_reminders`) are recorded as an explicit event trace.
-/

namespace Jarvis

/-- Calendar/clock representation of a Python `datetime` (UTC anchored). -/
structure DateTime where
  year : Nat
  month : Nat
  day : Nat
  hour : Nat
  minute : Nat
  second : Nat
  microsecond : Nat
deriving DecidableEq

/-- Python `datetime` comparison: lexicographic on the component tuple. -/
def DateTime.lt (a b : DateTime) : Prop :=
  a.year < b.year ∨ (a.year = b.year ∧
    (a.month < b.month ∨ (a.month = b.month ∧
      (a.day < b.day ∨ (a.day = b.day ∧
        (a.hour < b.hour ∨ (a.hour = b.hour ∧
          (a.minute < b.minute ∨ (a.minute = b.minute ∧
            (a.second < b.second ∨ (a.second = b.second ∧
              a.microsecond < b.microsecond)))))))))))

/-- Python `<=` on datetimes: strictly less or component-wise equal. -/
def DateTime.le (a b : DateTime) : Prop :=
  DateTime.lt a b ∨ a = b

instance (a b : DateTime) : Decidable (DateTime.lt a b) := by
  unfold DateTime.lt
  exact inferInstance

instance (a b : DateTime) : Decidable (DateTime.le a b) := by
  unfold DateTime.le
  exact inferInstance

/-- Gregorian leap-year test (as used by Python's calendar arithmetic). -/
def isLeap (y : Nat) : Bool :=
  (y % 4 == 0 && y % 100 != 0) || y % 400 == 0

/-- Length of a month in the proleptic Gregorian calendar. -/
def daysInMonth (y m : Nat) : Nat :=
  if m = 2 then (if isLeap y then 29 else 28)
  else if m = 4 ∨ m = 6 ∨ m = 9 ∨ m = 11 then 30
  else 31

/-- Advance a datetime by one calendar day, keeping the time of day:
`datetime + timedelta(days=1)` (UTC, so no DST adjustment). -/
def DateTime.addOneDay (d : DateTime) : DateTime :=
  if d.day < daysInMonth d.year d.month then { d with day := d.day + 1 }
  else if d.month < 12 then { d with month := d.month + 1, day := 1 }
  else { d with year := d.year + 1, month := 1, day := 1 }

/-- Advance a datetime by `n` calendar days: `datetime + timedelta(days=n)`
(the program only ever uses non-negative counts). -/
def DateTime.addDays : Nat → DateTime → DateTime
  | 0, d => d
  | n + 1, d => DateTime.addDays n d.addOneDay

/-- Advance a datetime by `n` calendar months with day-of-month clamping:
`dateutil.relativedelta(months=n)` normalises month overflow into years and
clamps the day to the target month's length. -/
def DateTime.addMonths (n : Nat) (d : DateTime) : DateTime :=
  let t := d.month - 1 + n
  let y := d.year + t / 12
  let m := t % 12 + 1
  { d with year := y, month := m, day := min d.day (daysInMonth y m) }

/-- Component validity of a datetime (what Python's `datetime` enforces on
construction, with years up to 9999). -/
def DateTime.valid (d : DateTime) : Prop :=
  1 ≤ d.year ∧ d.year ≤ 9999 ∧ 1 ≤ d.month ∧ d.month ≤ 12 ∧
  1 ≤ d.day ∧ d.day ≤ daysInMonth d.year d.month ∧
  d.hour ≤ 23 ∧ d.minute ≤ 59 ∧ d.second ≤ 59 ∧ d.microsecond ≤ 999999

instance (d : DateTime) : Decidable d.valid := by
  unfold DateTime.valid
  exact inferInstance

/-- Microseconds elapsed since the day's midnight; used to compare instants
that fall on the same calendar day. -/
def DateTime.timeOfDayMicros (d : DateTime) : Nat :=
  ((d.hour * 60 + d.minute) * 60 + d.second) * 1000000 + d.microsecond

/-- Interval dictionary: the Python `Dict[str, int]` payload of
`recurring_interval` as an association list. -/
abbrev IntervalDict := List (String × Nat)

/-- Embedding of the `Reminder` dataclass of `reminder_system.py`. -/
structure Reminder where
  id : String
  text : String
  due_time : DateTime
  created_at : DateTime
  completed : Bool := false
  recurring : Bool := false
  recurring_interval : Option IntervalDict := none
  last_triggered : Option DateTime := none
deriving DecidableEq

/-- Python dict falsiness of `recurring_interval` (`not self.recurring_interval`):
`None` and the empty dict are falsy. -/
def intervalFalsy : Option IntervalDict → Bool
  | none => true
  | some d => d.isEmpty

/-- `Reminder.is_due`: false when completed, otherwise `current_time >= due_time`. -/
def Reminder.isDue (now : DateTime) (r : Reminder) : Bool :=
  if r.completed then false
  else decide (DateTime.le r.due_time now)

/-- `Reminder.mark_completed`: sets `completed` and stamps `last_triggered`
with the current time (`datetime.now(pytz.utc)`, passed in as `now`). -/
def Reminder.markCompleted (now : DateTime) (r : Reminder) : Reminder :=
  { r with completed := true, last_triggered := some now }

/-- `Reminder.reschedule`: returns the updated reminder and the Python return
value.  Non-recurring or falsy-interval reminders are returned unchanged with
`False`; otherwise `last_triggered` is stamped and `due_time` advanced by the
first matching key among `days`, `weeks`, `months` (an interval with none of
those keys still returns `True` with `due_time` unchanged). -/
def Reminder.reschedule (now : DateTime) (r : Reminder) : Reminder × Bool :=
  if !r.recurring || intervalFalsy r.recurring_interval then (r, false)
  else
    let r1 := { r with last_triggered := some now }
    match List.lookup ("days") (r.recurring_interval.getD []) with
    | some n => ({ r1 with due_time := DateTime.addDays n r1.due_time }, true)
    | none =>
      match List.lookup ("weeks") (r.recurring_interval.getD []) with
      | some n => ({ r1 with due_time := DateTime.addDays (7 * n) r1.due_time }, true)
      | none =>
        match List.lookup ("months") (r.recurring_interval.getD []) with
        | some n => ({ r1 with due_time := DateTime.addMonths n r1.due_time }, true)
        | none => (r1, true)

/-- Reminder store: the `ReminderSystem.reminders` dict as an insertion
ordered association list with unique keys. -/
abbrev Store := List (String × Reminder)

/-- Python dict lookup `d[k]` (as an option): first value stored under the
key. -/
def lookupKey {α : Type} (k : String) : List (String × α) → Option α
  | [] => none
  | (k1, v) :: rest => if k1 = k then some v else lookupKey k rest

/-- Python dict membership `k in d`. -/
def hasKey {α : Type} (k : String) : List (String × α) → Bool
  | [] => false
  | (k1, _) :: rest => if k1 = k then true else hasKey k rest

/-- Python dict assignment `store[k] = r`: replace the value at an existing
key in place, append a new key at the end. -/
def insertStore (st : Store) (k : String) (r : Reminder) : Store :=
  if hasKey k st then
    st.map fun p => if p.1 = k then (p.1, r) else p
  else st ++ [(k, r)]

/-- `ReminderSystem.add_reminder`: the id is `str(int(time.time()))`, i.e. the
decimal rendering of the wall clock truncated to seconds (`tMicros` is the
clock in epoch microseconds, `nowUtc` the matching `datetime.now(pytz.utc)`).
Returns the updated store and the assigned id. -/
def addReminder (tMicros : Nat) (nowUtc : DateTime) (st : Store)
    (text : String) (due : DateTime) (recurring : Bool)
    (interval : Option IntervalDict) : Store × String :=
  let rid := toString (tMicros / 1000000)
  let r : Reminder :=
    { id := rid, text := text, due_time := due, created_at := nowUtc,
      completed := false, recurring := recurring,
      recurring_interval := interval, last_triggered := none }
  (insertStore st rid r, rid)

/-- `ReminderSystem.mark_completed`: if the id is present, apply
`Reminder.mark_completed` to the stored record (and persist); returns the
updated store and the Python return value. -/
def markCompletedStore (now : DateTime) (st : Store) (rid : String) :
    Store × Bool :=
  if hasKey rid st then
    (st.map fun p =>
      if p.1 = rid then (p.1, Reminder.markCompleted now p.2) else p, true)
  else (st, false)

/-- User-visible effects recorded by the scheduler loop and the tray
observer: a notification for a reminder id, or a store persist. -/
inductive Event where
  | notify (id : String)
  | save
deriving DecidableEq

/-- One iteration of `ReminderSystem._process_reminders`: the due list is
computed up front from the store, then each due reminder is notified
(`_notify_reminder` performs no dedup check of any kind) and transitioned
(`reschedule` when recurring else `mark_completed`), and the store is saved
immediately after each reminder — the `_save_reminders()` call sits inside
the for loop. -/
def processDue (now : DateTime) (r : Reminder) : Reminder :=
  if r.recurring then (r.reschedule now).1 else r.markCompleted now

/-- Scheduler-loop body over the store, returning the updated store and the
event trace of the iteration. -/
def processLoop (now : DateTime) : Store → Store × List Event
  | [] => ([], [])
  | (i, r) :: rest =>
    if Reminder.isDue now r then
      let out := processLoop now rest
      ((i, processDue now r) :: out.1, Event.notify i :: Event.save :: out.2)
    else
      let out := processLoop now rest
      ((i, r) :: out.1, out.2)

/-- Tray-side dedup map `JarvisTrayIcon.last_notification_time`: reminder id
to the epoch-seconds timestamp of the last tray notification. -/
abbrev TrayMap := List (String × Nat)

/-- Python dict assignment on the tray's dedup map. -/
def insertTime (m : TrayMap) (k : String) (v : Nat) : TrayMap :=
  if hasKey k m then
    m.map fun p => if p.1 = k then (p.1, v) else p
  else m ++ [(k, v)]

/-- `JarvisTrayIcon.check_notifications` over the due entries of the store:
a due reminder whose id has a recorded tray timestamp less than 300 seconds
old is skipped; otherwise the tray shows a message, records `time.time()`
(`nowE`, epoch seconds), applies the lifecycle transition and saves.  The
dedup map is private to the tray object — the scheduler loop never reads or
writes it. -/
def checkLoop (nowDt : DateTime) (nowE : Nat) :
    TrayMap → Store → TrayMap × Store × List Event
  | tray, [] => (tray, [], [])
  | tray, (i, r) :: rest =>
    if Reminder.isDue nowDt r then
      let suppress : Bool :=
        match lookupKey i tray with
        | some t => decide (nowE - t < 300)
        | none => false
      if suppress then
        let out := checkLoop nowDt nowE tray rest
        (out.1, (i, r) :: out.2.1, out.2.2)
      else
        let tray1 := insertTime tray i nowE
        let out := checkLoop nowDt nowE tray1 rest
        (out.1, (i, processDue nowDt r) :: out.2.1,
          Event.notify i :: Event.save :: out.2.2)
    else
      let out := checkLoop nowDt nowE tray rest
      (out.1, (i, r) :: out.2.1, out.2.2)

/-- Decimal digit character for a value below ten. -/
def digitChar (n : Nat) : Char := Char.ofNat (48 + n)

/-- Two-digit zero-padded rendering (months, days, hours, minutes, seconds). -/
def pad2 (n : Nat) : List Char := [digitChar (n / 10), digitChar (n % 10)]

/-- Four-digit zero-padded rendering (years). -/
def pad4 (n : Nat) : List Char :=
  [digitChar (n / 1000), digitChar (n / 100 % 10),
   digitChar (n / 10 % 10), digitChar (n % 10)]

/-- Six-digit zero-padded rendering (microseconds). -/
def pad6 (n : Nat) : List Char :=
  [digitChar (n / 100000), digitChar (n / 10000 % 10),
   digitChar (n / 1000 % 10), digitChar (n / 100 % 10),
   digitChar (n / 10 % 10), digitChar (n % 10)]

/-- `datetime.isoformat()` on a UTC-aware value:
`YYYY-MM-DDTHH:MM:SS[.ffffff]+00:00`, with the fractional part omitted when
the microsecond is zero. -/
def DateTime.isoformat (d : DateTime) : List Char :=
  pad4 d.year ++ '-' :: pad2 d.month ++ '-' :: pad2 d.day ++
  'T' :: pad2 d.hour ++ ':' :: pad2 d.minute ++ ':' :: pad2 d.second ++
  (if d.microsecond = 0 then [] else '.' :: pad6 d.microsecond) ++
  ['+', '0', '0', ':', '0', '0']

/-- Numeric value of a decimal digit character, `none` on a non-digit. -/
def charDigit (c : Char) : Option Nat :=
  if c.isDigit then some (c.toNat - 48) else none

/-- Read a two-digit decimal number. -/
def read2 (a b : Char) : Option Nat :=
  match charDigit a, charDigit b with
  | some x, some y => some (10 * x + y)
  | _, _ => none

/-- Read a four-digit decimal number. -/
def read4 (a b c d : Char) : Option Nat :=
  match charDigit a, charDigit b, charDigit c, charDigit d with
  | some x, some y, some z, some w => some (1000 * x + 100 * y + 10 * z + w)
  | _, _, _, _ => none

/-- Read a six-digit decimal number. -/
def read6 (a b c d e f : Char) : Option Nat :=
  match charDigit a, charDigit b, charDigit c,
        charDigit d, charDigit e, charDigit f with
  | some x, some y, some z, some w, some v, some u =>
    some (100000 * x + 10000 * y + 1000 * z + 100 * w + 10 * v + u)
  | _, _, _, _, _, _ => none

/-- Modelled from `dateutil.parser.parse` restricted to the grammar that
`DateTime.isoformat` emits (the only strings the program ever feeds back to
it): fixed-width date and time, optional `.ffffff` fraction, `+00:00` zone. -/
def parseIso (cs : List Char) : Option DateTime :=
  match cs with
  | y1 :: y2 :: y3 :: y4 :: sa :: o1 :: o2 :: sb :: a1 :: a2 :: st ::
    h1 :: h2 :: sc :: i1 :: i2 :: sd :: s1 :: s2 :: rest =>
    if sa = '-' ∧ sb = '-' ∧ st = 'T' ∧ sc = ':' ∧ sd = ':' then
      match read4 y1 y2 y3 y4, read2 o1 o2, read2 a1 a2,
            read2 h1 h2, read2 i1 i2, read2 s1 s2 with
      | some y, some mo, some da, some ho, some mi, some se =>
        match rest with
        | [t1, t2, t3, t4, t5, t6] =>
          if t1 = '+' ∧ t2 = '0' ∧ t3 = '0' ∧ t4 = ':' ∧ t5 = '0' ∧ t6 = '0'
          then some ⟨y, mo, da, ho, mi, se, 0⟩
          else none
        | dot :: u1 :: u2 :: u3 :: u4 :: u5 :: u6 ::
          t1 :: t2 :: t3 :: t4 :: t5 :: t6 :: [] =>
          if dot = '.' ∧ t1 = '+' ∧ t2 = '0' ∧ t3 = '0' ∧ t4 = ':' ∧
             t5 = '0' ∧ t6 = '0' then
            match read6 u1 u2 u3 u4 u5 u6 with
            | some us => some ⟨y, mo, da, ho, mi, se, us⟩
            | none => none
          else none
        | _ => none
      | _, _, _, _, _, _ => none
    else none
  | _ => none

/-- A persisted reminder record after JSON decoding, as `Reminder.from_dict`
receives it.  `none` on the first four fields models a missing key (Python
raises `KeyError` there); `completed`/`recurring` are shown after the
`data.get(…, False)` defaulting; `lastVal` is `none` when the key is absent
or null. -/
structure RemDict where
  idVal : Option String
  textVal : Option String
  dueVal : Option (List Char)
  createdVal : Option (List Char)
  completedVal : Bool
  recurringVal : Bool
  intervalVal : Option IntervalDict
  lastVal : Option (List Char)
deriving DecidableEq

/-- Errors a load can raise: `KeyError` on a missing mandatory key,
`ValueError` from `dateutil` on an unparseable instant, an OS error on an
unreadable file.  None of these are caught by `_load_reminders`. -/
inductive LoadErr where
  | keyErr
  | valueErr
  | ioErr
deriving DecidableEq

/-- `Reminder.to_dict`: every key emitted, instants rendered by `isoformat`. -/
def Reminder.toDict (r : Reminder) : RemDict :=
  { idVal := some r.id, textVal := some r.text,
    dueVal := some r.due_time.isoformat,
    createdVal := some r.created_at.isoformat,
    completedVal := r.completed, recurringVal := r.recurring,
    intervalVal := r.recurring_interval,
    lastVal := r.last_triggered.map DateTime.isoformat }

/-- `Reminder.from_dict`, evaluated in Python's argument order: mandatory
keys raise `KeyError` when missing, instants raise `ValueError` when they do
not parse, and `last_triggered` goes through a falsiness check (absent, null
or empty string all yield `None`). -/
def fromDict (d : RemDict) : Except LoadErr Reminder :=
  match d.idVal with
  | none => Except.error LoadErr.keyErr
  | some i =>
    match d.textVal with
    | none => Except.error LoadErr.keyErr
    | some t =>
      match d.dueVal with
      | none => Except.error LoadErr.keyErr
      | some ds =>
        match parseIso ds with
        | none => Except.error LoadErr.valueErr
        | some due =>
          match d.createdVal with
          | none => Except.error LoadErr.keyErr
          | some cs =>
            match parseIso cs with
            | none => Except.error LoadErr.valueErr
            | some created =>
              match d.lastVal with
              | none =>
                Except.ok ⟨i, t, due, created, d.completedVal,
                  d.recurringVal, d.intervalVal, none⟩
              | some ls =>
                if ls.isEmpty then
                  Except.ok ⟨i, t, due, created, d.completedVal,
                    d.recurringVal, d.intervalVal, none⟩
                else
                  match parseIso ls with
                  | none => Except.error LoadErr.valueErr
                  | some lt' =>
                    Except.ok ⟨i, t, due, created, d.completedVal,
                      d.recurringVal, d.intervalVal, some lt'⟩

instance : DecidableEq (Except LoadErr Reminder) := fun a b =>
  match a, b with
  | Except.ok x, Except.ok y =>
    if h : x = y then isTrue (by rw [h]) else isFalse (by simp [h])
  | Except.error x, Except.error y =>
    if h : x = y then isTrue (by rw [h]) else isFalse (by simp [h])
  | Except.ok _, Except.error _ => isFalse (by simp)
  | Except.error _, Except.ok _ => isFalse (by simp)

instance : DecidableEq (Except LoadErr Store) := fun a b =>
  match a, b with
  | Except.ok x, Except.ok y =>
    if h : x = y then isTrue (by rw [h]) else isFalse (by simp [h])
  | Except.error x, Except.error y =>
    if h : x = y then isTrue (by rw [h]) else isFalse (by simp [h])
  | Except.ok _, Except.error _ => isFalse (by simp)
  | Except.error _, Except.ok _ => isFalse (by simp)

/-- State of the backing file as seen at load time: absent, unreadable
(open fails), not valid JSON (`json.load` raises `JSONDecodeError`), or a
decoded JSON object of per-id records. -/
inductive FileData where
  | unreadable
  | notJson
  | jsonMap (entries : List (String × RemDict))
deriving DecidableEq

/-- Build the in-memory mapping from decoded records, in file order; the
first record `from_dict` rejects aborts the whole load with its error. -/
def loadEntries : List (String × RemDict) → Except LoadErr Store
  | [] => Except.ok []
  | (k, d) :: rest => do
    let r ← fromDict d
    let rs ← loadEntries rest
    pure ((k, r) :: rs)

/-- `ReminderSystem._load_reminders`: a missing file leaves the store empty
(early return); the `try` block catches only `JSONDecodeError` and
`FileNotFoundError`, so invalid JSON yields an empty store while an
unreadable file or a record `from_dict` rejects propagates its error. -/
def loadReminders : Option FileData → Except LoadErr Store
  | none => Except.ok []
  | some FileData.unreadable => Except.error LoadErr.ioErr
  | some FileData.notJson => Except.ok []
  | some (FileData.jsonMap es) => loadEntries es

/-- `ReminderSystem._save_reminders`: full snapshot of the store, one JSON
record per reminder via `to_dict`. -/
def saveReminders (st : Store) : FileData :=
  FileData.jsonMap (st.map fun p => (p.1, p.2.toDict))

/-- Validity of an optional instant. -/
def optValid : Option DateTime → Prop
  | none => True
  | some dt => dt.valid

instance (o : Option DateTime) : Decidable (optValid o) := by
  cases o with
  | none => exact isTrue trivial
  | some dt =>
    unfold optValid
    exact inferInstance

/-- Validity of a stored reminder's instants (every datetime the program
builds satisfies this). -/
def Reminder.validT (r : Reminder) : Prop :=
  r.due_time.valid ∧ r.created_at.valid ∧ optValid r.last_triggered

instance (r : Reminder) : Decidable r.validT := by
  unfold Reminder.validT
  exact inferInstance

/-- Boolean prefix test on character lists. -/
def isPrefixL : List Char → List Char → Bool
  | [], _ => true
  | _ :: _, [] => false
  | a :: as, b :: bs => a == b && isPrefixL as bs

/-- Boolean substring test: Python's `needle in haystack`. -/
def containsSubAux (needle : List Char) : List Char → Bool
  | [] => needle.isEmpty
  | c :: rest => isPrefixL needle (c :: rest) || containsSubAux needle rest

/-- Python `pat in s` on strings. -/
def strContains (s pat : String) : Bool :=
  containsSubAux pat.toList s.toList

/-- Recurrence-keyword detection of `parse_reminder_text` (the input has
already been lower-cased): the three keyword groups are tried in order, the
first hit fixes `recurring=True` with its one-entry interval dict and strips
the keywords from the working text. -/
def parseRecurrence (text : String) : Bool × Option IntervalDict × String :=
  if strContains text ("every day") || strContains text ("daily") then
    (true, some [(("days" : String), 1)],
      (((text.replace ("every day") ("")).replace ("daily") ("")).trim))
  else if strContains text ("every week") || strContains text ("weekly") then
    (true, some [(("weeks" : String), 1)],
      (((text.replace ("every week") ("")).replace ("weekly") ("")).trim))
  else if strContains text ("every month") || strContains text ("monthly") then
    (true, some [(("months" : String), 1)],
      (((text.replace ("every month") ("")).replace ("monthly") ("")).trim))
  else (false, none, text)

/-- The am/pm suffix captured by the time regex (or no suffix at all). -/
inductive Period where
  | am
  | pm
  | bare
deriving DecidableEq

/-- 24-hour conversion of the captured hour: `pm` adds 12 below 12, `12am`
maps to 0, anything else is taken as given. -/
def to24 (h : Nat) : Period → Nat
  | Period.pm => if h < 12 then h + 12 else h
  | Period.am => if h = 12 then 0 else h
  | Period.bare => h

/-- `now.replace(hour=h, minute=m, second=0, microsecond=0)` for in-range
arguments. -/
def replaceTime (now : DateTime) (h m : Nat) : DateTime :=
  { now with hour := h, minute := m, second := 0, microsecond := 0 }

/-- Due-time resolution of `parse_reminder_text` once the time regex has
captured an hour, an optional minute (0 when absent) and an optional am/pm
suffix: today's date at that wall-clock time, rolled forward one day when not
strictly after `now`.  An out-of-range hour or minute makes
`datetime.replace` raise `ValueError`, which the surrounding `except`
converts into a parse failure (`none`). -/
def resolveDue (now : DateTime) (rawH minute : Nat) (p : Period) :
    Option DateTime :=
  let hour := to24 rawH p
  if 23 < hour ∨ 59 < minute then none
  else
    let d := replaceTime now hour minute
    some (if DateTime.le d now then d.addOneDay else d)

/-- An interval dict with exactly one non-zero field. -/
def exactlyOneNonzero (d : IntervalDict) : Bool :=
  (d.filter fun p => decide (p.2 ≠ 0)).length == 1

/-- The spec's recurrence invariant on one reminder: `recurring` implies an
interval is present with exactly one non-zero field. -/
def reminderIntervalOk (r : Reminder) : Bool :=
  if r.recurring then
    match r.recurring_interval with
    | some d => exactlyOneNonzero d
    | none => false
  else true

/-- The recurrence invariant over the whole store. -/
def storeIntervalOk (st : Store) : Bool :=
  st.all fun p => reminderIntervalOk p.2

/-! Concrete fixtures used by witnesses and counterexamples. -/

/-- A concrete wall-clock instant, 2024-01-01 10:00:00 UTC. -/
def dt0 : DateTime := ⟨2024, 1, 1, 10, 0, 0, 0⟩

/-- A concrete due instant, 2024-01-02 09:00:00 UTC. -/
def dtJan2 : DateTime := ⟨2024, 1, 2, 9, 0, 0, 0⟩

/-- Reminder text fixture. -/
def txtMilk : String := "buy milk"

/-- Reminder text fixture. -/
def txtMom : String := "call mom"

/-- A plain non-recurring reminder fixture. -/
def remPlain : Reminder :=
  { id := "5", text := txtMilk, due_time := dtJan2, created_at := dt0 }

/-- A recurring monthly reminder due on January 31 of a leap year. -/
def remJan31 : Reminder :=
  { id := "9", text := txtMom, due_time := ⟨2024, 1, 31, 9, 0, 0, 0⟩,
    created_at := dt0, recurring := true,
    recurring_interval := some [(("months" : String), 1)] }

/-- A syntactically well-formed JSON record that is missing the mandatory
`id` key. -/
def badRecord : RemDict :=
  { idVal := none, textVal := some txtMilk,
    dueVal := some dt0.isoformat, createdVal := some dt0.isoformat,
    completedVal := false, recurringVal := false,
    intervalVal := none, lastVal := none }

/-- Two distinct reminders both due at `dt0`. -/
def remDueA : Reminder :=
  { id := "a", text := txtMilk, due_time := ⟨2024, 1, 1, 8, 0, 0, 0⟩,
    created_at := ⟨2023, 12, 31, 8, 0, 0, 0⟩ }

/-- Second due fixture for the two-reminder iteration. -/
def remDueB : Reminder :=
  { id := "b", text := txtMom, due_time := ⟨2024, 1, 1, 9, 0, 0, 0⟩,
    created_at := ⟨2023, 12, 31, 8, 0, 0, 0⟩ }

/-- A recurring reminder with a zero-day interval: `reschedule` succeeds but
leaves `due_time` unchanged, so the reminder is due again at the very next
poll. -/
def remEveryPoll : Reminder :=
  { id := "r", text := txtMilk, due_time := ⟨2024, 1, 1, 8, 0, 0, 0⟩,
    created_at := ⟨2023, 12, 31, 8, 0, 0, 0⟩, recurring := true,
    recurring_interval := some [(("days" : String), 0)] }

/-- Scheduler iteration instant fixture, 08:00:00. -/
def dtIter1 : DateTime := ⟨2024, 1, 1, 8, 0, 0, 0⟩

/-- Scheduler iteration instant fixture, 08:00:10 — ten seconds later, well
inside the 5-minute window. -/
def dtIter2 : DateTime := ⟨2024, 1, 1, 8, 0, 10, 0⟩

/-- A reminder exercising every field: non-zero microseconds on each
instant, a recorded `last_triggered`, and a recurrence interval. -/
def remFull : Reminder :=
  { id := "7", text := txtMom, due_time := ⟨2024, 2, 29, 23, 59, 59, 123456⟩,
    created_at := ⟨2023, 12, 31, 0, 0, 1, 7⟩, completed := true,
    recurring := true, recurring_interval := some [(("weeks" : String), 2)],
    last_triggered := some ⟨2024, 1, 15, 6, 30, 0, 999999⟩ }

/-! Order helper lemmas for the datetime embedding. -/

/-- Totality of the lexicographic datetime order. -/
theorem DateTime.lt_of_not_le {a b : DateTime} (h : ¬ DateTime.le a b) :
    DateTime.lt b a := by
  obtain ⟨y1, m1, d1, h1, i1, s1, u1⟩ := a
  obtain ⟨y2, m2, d2, h2, i2, s2, u2⟩ := b
  simp only [DateTime.le, DateTime.lt, DateTime.mk.injEq, not_or, not_and] at *
  omega

/-- Rolling the resolved wall-clock time forward one day always lands
strictly after any instant of the current day. -/
theorem lt_addOneDay_replace (now : DateTime) (h m : Nat) :
    DateTime.lt now (DateTime.addOneDay (replaceTime now h m)) := by
  obtain ⟨y, mo, d, hh, mi, s, u⟩ := now
  unfold replaceTime DateTime.addOneDay
  dsimp only
  split
  · simp [DateTime.lt]
  · split
    · simp [DateTime.lt]
    · simp [DateTime.lt]

/-- Claim C5: for every extracted time expression (captured hour, optional minute,
optional am/pm suffix) and every `now`, when the time resolution succeeds the
produced due time is strictly after `now`, and whenever today's resolved
wall-clock time is not strictly after `now` the due time is exactly that
time plus one day. -/
theorem parse_time_never_past (now : DateTime) (rawH minute : Nat)
    (p : Period) (due : DateTime)
    (hr : resolveDue now rawH minute p = some due) :
    DateTime.lt now due ∧
      (DateTime.le (replaceTime now (to24 rawH p) minute) now →
        due = DateTime.addOneDay (replaceTime now (to24 rawH p) minute)) := by
  unfold resolveDue at hr
  by_cases hg : 23 < to24 rawH p ∨ 59 < minute
  · rw [if_pos hg] at hr
    exact Option.noConfusion hr
  · simp only [if_neg hg, Option.some.injEq] at hr
    by_cases hle : DateTime.le (replaceTime now (to24 rawH p) minute) now
    · rw [if_pos hle] at hr
      subst hr
      exact ⟨lt_addOneDay_replace now _ minute, fun _ => rfl⟩
    · rw [if_neg hle] at hr
      subst hr
      exact ⟨DateTime.lt_of_not_le hle, fun hc => absurd hc hle⟩

/-- Witness for C5 at a concrete input: "9:30am" parsed at 10:00 resolves to
09:30 the next day. -/
theorem parse_time_never_past_witness :
    DateTime.lt dt0 ⟨2024, 1, 2, 9, 30, 0, 0⟩ ∧
      (DateTime.le (replaceTime dt0 (to24 9 Period.am) 30) dt0 →
        (⟨2024, 1, 2, 9, 30, 0, 0⟩ : DateTime) =
          DateTime.addOneDay (replaceTime dt0 (to24 9 Period.am) 30)) :=
  parse_time_never_past dt0 9 30 Period.am ⟨2024, 1, 2, 9, 30, 0, 0⟩
    (by decide)

/-- Claim C10: rescheduling a reminder that is not recurring, or whose interval is
absent, returns `False` and leaves every field of the reminder unchanged. -/
theorem reschedule_nonrecurring_noop (r : Reminder) (now : DateTime)
    (h : r.recurring = false ∨ r.recurring_interval = none) :
    Reminder.reschedule now r = (r, false) := by
  unfold Reminder.reschedule
  rcases h with h | h
  · simp [h]
  · simp [h, intervalFalsy]

/-- Witness for C10 at a concrete non-recurring reminder. -/
theorem reschedule_nonrecurring_noop_witness :
    Reminder.reschedule dt0 remPlain = (remPlain, false) :=
  reschedule_nonrecurring_noop remPlain dt0 (Or.inl rfl)

/-- Claim C9: rescheduling a monthly reminder due on January 31 clamps the
day-of-month to February's length — the 28th in a common year, the 29th in a
leap year. -/
theorem reschedule_month_clamps_jan31 (r : Reminder) (now : DateTime)
    (y h mi s us : Nat) (hrec : r.recurring = true)
    (hint : r.recurring_interval = some [(("months" : String), 1)])
    (hdue : r.due_time = ⟨y, 1, 31, h, mi, s, us⟩) :
    (Reminder.reschedule now r).1.due_time =
      ⟨y, 2, if isLeap y then 29 else 28, h, mi, s, us⟩ ∧
    (Reminder.reschedule now r).2 = true := by
  by_cases hl : isLeap y = true
  · simp [Reminder.reschedule, hrec, hint, intervalFalsy, List.lookup,
      DateTime.addMonths, daysInMonth, hdue, hl]
  · simp [Reminder.reschedule, hrec, hint, intervalFalsy, List.lookup,
      DateTime.addMonths, daysInMonth, hdue, hl]

/-- Witness for C9 at the concrete leap-year fixture. -/
theorem reschedule_month_clamps_jan31_witness :
    (Reminder.reschedule dt0 remJan31).1.due_time =
      ⟨2024, 2, if isLeap 2024 then 29 else 28, 9, 0, 0, 0⟩ ∧
    (Reminder.reschedule dt0 remJan31).2 = true :=
  reschedule_month_clamps_jan31 remJan31 dt0 2024 9 0 0 0 rfl rfl rfl

/-! Association-list helper lemmas for the store. -/

/-- A successful lookup implies the key-membership test used by the store. -/
theorem hasKey_of_lookupKey {α : Type} (rid : String) (v : α)
    (st : List (String × α)) (h : lookupKey rid st = some v) :
    hasKey rid st = true := by
  induction st with
  | nil => simp [lookupKey] at h
  | cons hd tl ih =>
    obtain ⟨k, w⟩ := hd
    by_cases hk : k = rid
    · simp [hasKey, hk]
    · simp only [lookupKey, if_neg hk] at h
      simp [hasKey, hk, ih h]

/-- Updating the value at a key through the store's map commutes with
lookup. -/
theorem lookupKey_map_update {α : Type} (rid : String) (f : α → α)
    (st : List (String × α)) :
    lookupKey rid
        (st.map fun p => if p.1 = rid then (p.1, f p.2) else p) =
      (lookupKey rid st).map f := by
  induction st with
  | nil => simp [lookupKey]
  | cons hd tl ih =>
    obtain ⟨k, w⟩ := hd
    simp only [List.map_cons]
    by_cases hk : k = rid
    · simp only [hk, if_true, eq_self_iff_true]
      simp [lookupKey]
    · simp only [hk, if_false, eq_self_iff_true]
      simp [lookupKey, hk, ih]

/-- Effect of the store-level `mark_completed` on the looked-up record. -/
theorem lookup_markCompletedStore (now : DateTime) (st : Store)
    (rid : String) (r : Reminder) (h : lookupKey rid st = some r) :
    lookupKey rid (markCompletedStore now st rid).1 =
      some (Reminder.markCompleted now r) := by
  unfold markCompletedStore
  rw [if_pos (hasKey_of_lookupKey rid r st h)]
  dsimp only
  rw [lookupKey_map_update, h]
  rfl

/-- Claim C2 amended: a second `mark_completed` on the same id leaves the reminder
completed but re-stamps `last_triggered` with the time of the second call —
it is a no-op only when both calls carry the same clock reading. -/
theorem mark_completed_twice_restamps (st : Store) (rid : String)
    (r : Reminder) (t1 t2 : DateTime)
    (h : lookupKey rid st = some r) :
    ∃ r2,
      lookupKey rid
          (markCompletedStore t2
            (markCompletedStore t1 st rid).1 rid).1 = some r2 ∧
        r2.completed = true ∧ r2.last_triggered = some t2 := by
  have h1 := lookup_markCompletedStore t1 st rid r h
  have h2 := lookup_markCompletedStore t2 _ rid _ h1
  exact ⟨_, h2, rfl, rfl⟩

/-- Witness for the amended C2 at a concrete store. -/
theorem mark_completed_twice_restamps_witness :
    ∃ r2,
      lookupKey ("5")
          (markCompletedStore dtJan2
            (markCompletedStore dt0 [(("5" : String), remPlain)] ("5")).1
            ("5")).1 = some r2 ∧
        r2.completed = true ∧ r2.last_triggered = some dtJan2 :=
  mark_completed_twice_restamps [(("5" : String), remPlain)] ("5") remPlain
    dt0 dtJan2 (by decide)

/-- Claim C2 counterexample: after a first `mark_completed` at 10:00 the stored
`last_triggered` is 10:00; a second call the next morning is not a no-op —
it moves `last_triggered` to the second call's time. -/
theorem mark_completed_second_call_changes :
    (lookupKey ("5")
        (markCompletedStore dt0 [(("5" : String), remPlain)] ("5")).1).map
      (fun r => r.last_triggered) = some (some dt0) ∧
    (lookupKey ("5")
        (markCompletedStore dtJan2
          (markCompletedStore dt0 [(("5" : String), remPlain)] ("5")).1
          ("5")).1).map
      (fun r => r.last_triggered) = some (some dtJan2) ∧
    lookupKey ("5")
        (markCompletedStore dtJan2
          (markCompletedStore dt0 [(("5" : String), remPlain)] ("5")).1
          ("5")).1 ≠
      lookupKey ("5")
        (markCompletedStore dt0 [(("5" : String), remPlain)] ("5")).1 := by
  refine ⟨by decide, by decide, by decide⟩

/-- Claim C6 counterexample: `add_reminder` performs no validation, so a caller
passing `recurring=True` with `recurring_interval=None` stores a reminder
that violates the recurrence invariant. -/
theorem add_reminder_skips_interval_check :
    storeIntervalOk
        (addReminder 5200000 dt0 [] txtMilk dtJan2 true none).1 = false := by
  decide

/-- Claim C6 amended: the parser path only ever pairs `recurring=True` with an
interval dict holding exactly one non-zero field, and the two lifecycle
transitions preserve the recurrence invariant — but the store itself never
enforces it on `add_reminder` arguments. -/
theorem parser_recurrence_invariant :
    (∀ text : String, (parseRecurrence text).1 = true →
      ∃ d, (parseRecurrence text).2.1 = some d ∧
        exactlyOneNonzero d = true) ∧
    (∀ (r : Reminder) (t : DateTime),
      reminderIntervalOk (Reminder.markCompleted t r) =
        reminderIntervalOk r) ∧
    (∀ (r : Reminder) (t : DateTime),
      reminderIntervalOk (Reminder.reschedule t r).1 =
        reminderIntervalOk r) := by
  refine ⟨?_, ?_, ?_⟩
  · intro text h
    unfold parseRecurrence at h ⊢
    split_ifs at h ⊢
    · exact ⟨[(("days" : String), 1)], rfl, rfl⟩
    · exact ⟨[(("weeks" : String), 1)], rfl, rfl⟩
    · exact ⟨[(("months" : String), 1)], rfl, rfl⟩
  · intro r t
    rfl
  · intro r t
    unfold Reminder.reschedule
    split
    · rfl
    · dsimp only
      split
      · rfl
      · split
        · rfl
        · split
          · rfl
          · rfl

/-- Claim C7 counterexample: a backing file whose content is valid JSON but whose
record lacks a mandatory key makes the load raise (`KeyError` escapes the
`except (json.JSONDecodeError, FileNotFoundError)` clause), and an
unreadable file raises as well — neither is treated as an empty store. -/
theorem load_malformed_record_raises :
    loadReminders (some (FileData.jsonMap [(("1" : String), badRecord)])) =
      Except.error LoadErr.keyErr ∧
    loadReminders (some (FileData.jsonMap [(("1" : String), badRecord)])) ≠
      Except.ok [] ∧
    loadReminders (some FileData.unreadable) =
      Except.error LoadErr.ioErr := by
  refine ⟨by decide, by decide, rfl⟩

/-- Claim C7 amended: a missing backing file yields an empty store, and a file
that is not valid JSON is treated as an empty store — but only those two
conditions are recovered; a readable file with valid JSON and malformed
records propagates its error. -/
theorem load_missing_or_invalid_json_empty :
    loadReminders none = Except.ok [] ∧
    loadReminders (some FileData.notJson) = Except.ok [] :=
  ⟨rfl, rfl⟩

/-- Claim C3: two `add_reminder` calls whose `time.time()` readings fall inside
the same wall-clock second (here 5.2s and 5.7s after the epoch) receive the
same id `str(int(time.time()))`, and the second insertion overwrites the
first — the store ends up with a single entry holding the second reminder. -/
theorem add_same_second_id_collision :
    (addReminder 5200000 dt0 [] txtMilk dtJan2 false none).2 =
      (addReminder 5700000 dt0
        (addReminder 5200000 dt0 [] txtMilk dtJan2 false none).1
        txtMom dtJan2 false none).2 ∧
    (addReminder 5700000 dt0
        (addReminder 5200000 dt0 [] txtMilk dtJan2 false none).1
        txtMom dtJan2 false none).1 =
      [(("5" : String),
        { id := "5", text := txtMom, due_time := dtJan2,
          created_at := dt0 })] := by
  refine ⟨by decide, by decide⟩

/-- Claim C8 amended: within one scheduler iteration the event trace is one
notification followed immediately by one persist for each due reminder in
store order — the store is saved once per due reminder (inside the for
loop), not once per iteration, and an iteration with no due reminders never
persists. -/
theorem scheduler_saves_per_due_reminder (now : DateTime) (st : Store) :
    (processLoop now st).2 =
      (st.filter fun p => Reminder.isDue now p.2).flatMap
        (fun p => [Event.notify p.1, Event.save]) ∧
    (processLoop now st).2.count Event.save =
      (st.filter fun p => Reminder.isDue now p.2).length := by
  induction st with
  | nil => exact ⟨rfl, rfl⟩
  | cons hd tl ih =>
    obtain ⟨i, r⟩ := hd
    by_cases hdue : Reminder.isDue now r = true
    · constructor
      · simp [processLoop, List.filter_cons, hdue, ih.1]
      · simp [processLoop, List.filter_cons, hdue, List.count_cons, ih.2]
    · constructor
      · simp [processLoop, List.filter_cons, hdue, ih.1]
      · simp [processLoop, List.filter_cons, hdue, ih.2]

/-- Claim C8 counterexample: an iteration whose batch holds two due reminders
persists the store twice, and the first persist happens before the second
reminder is dispatched — not exactly once after the whole batch. -/
theorem scheduler_save_not_once_per_iteration :
    (processLoop dt0 [(("a" : String), remDueA),
        (("b" : String), remDueB)]).2 =
      [Event.notify ("a"), Event.save, Event.notify ("b"), Event.save] ∧
    (processLoop dt0 [(("a" : String), remDueA),
        (("b" : String), remDueB)]).2.count Event.save = 2 := by
  refine ⟨by decide, by decide⟩

/-- Claim C1 counterexample: `_notify_reminder` consults no last-notified
timestamp at all, so two scheduler iterations ten seconds apart dispatch the
same reminder id twice and the user sees two notifications, not one. -/
theorem scheduler_no_dedup_within_window :
    (dtIter1.year = dtIter2.year ∧ dtIter1.month = dtIter2.month ∧
      dtIter1.day = dtIter2.day) ∧
    dtIter2.timeOfDayMicros - dtIter1.timeOfDayMicros = 10000000 ∧
    10000000 < 300 * 1000000 ∧
    ((processLoop dtIter1 [(("r" : String), remEveryPoll)]).2 ++
        (processLoop dtIter2
          (processLoop dtIter1 [(("r" : String), remEveryPoll)]).1).2).count
      (Event.notify ("r")) = 2 := by
  refine ⟨by decide, by decide, by decide, by decide⟩

/-- Claim C1 amended: only the tray observer deduplicates, against its own private
`last_notification_time` map: two tray checks on the same singleton store
within 300 seconds of each other produce exactly one notification for the
reminder's id. -/
theorem tray_dedup_window (i : String) (r : Reminder) (e1 e2 : Nat)
    (d1 d2 : DateTime) (h1 : Reminder.isDue d1 r = true)
    (hw : e2 - e1 < 300) :
    ((checkLoop d1 e1 [] [(i, r)]).2.2 ++
        (checkLoop d2 e2 (checkLoop d1 e1 [] [(i, r)]).1
          (checkLoop d1 e1 [] [(i, r)]).2.1).2.2).count
      (Event.notify i) = 1 := by
  have hrun1 : checkLoop d1 e1 [] [(i, r)] =
      ([(i, e1)], [(i, processDue d1 r)],
        [Event.notify i, Event.save]) := by
    simp [checkLoop, h1, lookupKey, insertTime, hasKey]
  rw [hrun1]
  by_cases h2 : Reminder.isDue d2 (processDue d1 r) = true
  · have hsup : (decide (e2 - e1 < 300)) = true := by
      simpa using hw
    simp [checkLoop, h2, lookupKey, hsup, List.count_cons]
  · simp [checkLoop, h2, List.count_cons]

/-- Witness for the amended C1: a concrete recurring reminder checked by the
tray at 08:00:00 and again 30 seconds later is notified exactly once. -/
theorem tray_dedup_window_witness :
    ((checkLoop dtIter1 1000 [] [(("r" : String), remEveryPoll)]).2.2 ++
        (checkLoop ⟨2024, 1, 1, 8, 0, 30, 0⟩ 1030
          (checkLoop dtIter1 1000 [] [(("r" : String), remEveryPoll)]).1
          (checkLoop dtIter1 1000 []
            [(("r" : String), remEveryPoll)]).2.1).2.2).count
      (Event.notify ("r")) = 1 :=
  tray_dedup_window ("r") remEveryPoll 1000 1030 dtIter1
    ⟨2024, 1, 1, 8, 0, 30, 0⟩ (by decide) (by decide)

/-! Round-trip of the isoformat codec. -/

/-- Digit characters decode to their value. -/
theorem charDigit_digitChar : ∀ k < 10, charDigit (digitChar k) = some k := by
  decide

/-- Every month length is at most 31. -/
theorem daysInMonth_le_31 (y m : Nat) : daysInMonth y m ≤ 31 := by
  unfold daysInMonth
  split
  · split <;> omega
  · split <;> omega

/-- Two-digit round trip. -/
theorem read2_pad2 (n : Nat) (h : n < 100) :
    read2 (digitChar (n / 10)) (digitChar (n % 10)) = some n := by
  unfold read2
  rw [charDigit_digitChar (n / 10) (by omega),
    charDigit_digitChar (n % 10) (by omega)]
  simp only [Option.some.injEq]
  omega

/-- Four-digit round trip. -/
theorem read4_pad4 (n : Nat) (h : n < 10000) :
    read4 (digitChar (n / 1000)) (digitChar (n / 100 % 10))
      (digitChar (n / 10 % 10)) (digitChar (n % 10)) = some n := by
  unfold read4
  rw [charDigit_digitChar (n / 1000) (by omega),
    charDigit_digitChar (n / 100 % 10) (by omega),
    charDigit_digitChar (n / 10 % 10) (by omega),
    charDigit_digitChar (n % 10) (by omega)]
  simp only [Option.some.injEq]
  omega

/-- Six-digit round trip. -/
theorem read6_pad6 (n : Nat) (h : n < 1000000) :
    read6 (digitChar (n / 100000)) (digitChar (n / 10000 % 10))
      (digitChar (n / 1000 % 10)) (digitChar (n / 100 % 10))
      (digitChar (n / 10 % 10)) (digitChar (n % 10)) = some n := by
  unfold read6
  rw [charDigit_digitChar (n / 100000) (by omega),
    charDigit_digitChar (n / 10000 % 10) (by omega),
    charDigit_digitChar (n / 1000 % 10) (by omega),
    charDigit_digitChar (n / 100 % 10) (by omega),
    charDigit_digitChar (n / 10 % 10) (by omega),
    charDigit_digitChar (n % 10) (by omega)]
  simp only [Option.some.injEq]
  omega

/-- The isoformat parser inverts the isoformat printer on every valid
datetime. -/
theorem parseIso_isoformat (d : DateTime) (h : d.valid) :
    parseIso d.isoformat = some d := by
  obtain ⟨y, mo, da, ho, mi, se, us⟩ := d
  unfold DateTime.valid at h
  dsimp only at h
  obtain ⟨hy1, hy2, hm1, hm2, hd1, hd2, hh, hmi, hs, hu⟩ := h
  unfold DateTime.isoformat
  dsimp only
  by_cases hus : us = 0
  · subst hus
    simp only [pad4, pad2, pad6, if_pos rfl, List.cons_append,
      List.nil_append, List.append_nil]
    simp only [parseIso]
    rw [if_pos (by simp)]
    rw [read4_pad4 y (by omega), read2_pad2 mo (by omega),
      read2_pad2 da (by have := daysInMonth_le_31 y mo; omega),
      read2_pad2 ho (by omega), read2_pad2 mi (by omega),
      read2_pad2 se (by omega)]
    simp
  · simp only [pad4, pad2, pad6, if_neg hus, List.cons_append,
      List.nil_append, List.append_nil]
    simp only [parseIso]
    rw [if_pos (by simp)]
    rw [read4_pad4 y (by omega), read2_pad2 mo (by omega),
      read2_pad2 da (by have := daysInMonth_le_31 y mo; omega),
      read2_pad2 ho (by omega), read2_pad2 mi (by omega),
      read2_pad2 se (by omega)]
    dsimp only
    rw [if_pos (show True ∧ True ∧ True ∧ True ∧ True ∧ True ∧ True by simp)]
    rw [read6_pad6 us (by omega)]

/-- An isoformat rendering is never the empty string, so the falsy check on
a persisted `last_triggered` never discards a real instant. -/
theorem isoformat_not_empty (d : DateTime) : d.isoformat.isEmpty = false := by
  obtain ⟨y, mo, da, ho, mi, se, us⟩ := d
  unfold DateTime.isoformat pad4
  simp

/-- Deserialization inverts serialization on any reminder whose instants are
valid datetimes. -/
theorem fromDict_toDict (r : Reminder) (h : r.validT) :
    fromDict r.toDict = Except.ok r := by
  obtain ⟨i, t, due, created, c, rec, intv, last⟩ := r
  obtain ⟨hdv, hcv, hlv⟩ := h
  unfold Reminder.toDict fromDict
  dsimp only
  rw [parseIso_isoformat due hdv, parseIso_isoformat created hcv]
  cases last with
  | none => rfl
  | some lt' =>
    simp only [Option.map]
    rw [if_neg (by rw [isoformat_not_empty lt']; simp)]
    rw [parseIso_isoformat lt' hlv]

/-- Loading what was just saved rebuilds the entry list unchanged. -/
theorem loadEntries_save (st : Store) (h : ∀ p ∈ st, Reminder.validT p.2) :
    loadEntries (st.map fun p => (p.1, p.2.toDict)) = Except.ok st := by
  induction st with
  | nil => rfl
  | cons hd tl ih =>
    obtain ⟨k, r⟩ := hd
    simp only [List.map_cons]
    unfold loadEntries
    rw [fromDict_toDict r (h (k, r) (by simp))]
    rw [ih (fun p hp => h p (List.mem_cons_of_mem _ hp))]
    rfl

/-- Claim C4: saving the store and loading it back reproduces the same mapping —
identical ids and field values, with every instant (including sub-second
microseconds) surviving the isoformat round trip exactly. -/
theorem save_load_roundtrip (st : Store)
    (h : ∀ p ∈ st, Reminder.validT p.2) :
    loadReminders (some (saveReminders st)) = Except.ok st := by
  unfold loadReminders saveReminders
  exact loadEntries_save st h

/-- Witness for C4 at a concrete two-reminder store. -/
theorem save_load_roundtrip_witness :
    (∀ p ∈ [(("5" : String), remPlain), (("7" : String), remFull)],
      Reminder.validT p.2) ∧
    loadReminders (some (saveReminders
        [(("5" : String), remPlain), (("7" : String), remFull)])) =
      Except.ok [(("5" : String), remPlain), (("7" : String), remFull)] :=
  ⟨by decide, save_load_roundtrip
    [(("5" : String), remPlain), (("7" : String), remFull)] (by decide)⟩

end Jarvis
